import Mathlib

/-!
Shallow embedding of the plot-inventory core of the Brokwise developer app:
the bulk-numbering generator and its zod validation schema
(`src/components/plots/CreatePlotDialog.tsx`), the plot status-update dialog
(`ProjectPage`), and the canvas layout reconciler
(`PlotCanvasInner` in `src/components/projects/CreateProjectDialog.tsx`).

JavaScript numbers are modelled as `ℚ` (exact arithmetic; none of the claims
concern floating-point rounding), integer-validated form fields as `ℤ`,
strings as `String`, optional fields as `Option`, and JS `Set` values as
`List` with membership semantics.
-/

namespace Brokwise

/-- Enumeration `PlotStatus` from `booking.types.ts`. -/
inductive PlotStatus
  | available
  | booked
  | reserved
  | sold
deriving DecidableEq

/-- Enumeration `AREA_UNITS` / `PlotAreaUnit`. -/
inductive PlotAreaUnit
  | SQ_FT
  | SQ_METER
  | SQ_YARDS
  | ACRES
deriving DecidableEq

/-- Enumeration `FACING_OPTS` / `Facing`. -/
inductive Facing
  | NORTH
  | SOUTH
  | EAST
  | WEST
  | NORTH_EAST
  | NORTH_WEST
  | SOUTH_EAST
  | SOUTH_WEST
deriving DecidableEq

/-- Enumeration `PLOT_TYPES` / `PlotType`. -/
inductive PlotType
  | CORNER
  | ROAD
  | REGULAR
deriving DecidableEq

/-- Enumeration `DIMENSION_UNITS` / `DimensionUnit`. -/
inductive DimensionUnit
  | FEET
  | METER
deriving DecidableEq

/-- `Dimensions` from `booking.types.ts` (`dimensionSchema` shape). -/
structure Dimensions where
  length : ℚ
  width : ℚ
  unit : DimensionUnit
deriving DecidableEq

/-- JS `s.padStart(n, "0")`: left-pad with `'0'` up to length `n`;
a string already at least `n` long is returned unchanged (never truncated). -/
def padStartZeros (s : String) (n : ℕ) : String :=
  String.mk (List.replicate (n - s.length) '0') ++ s

/-- Raw input to `bulkCreatePlotSchema` (`CreatePlotDialog.tsx`).
`startNumber`/`endNumber`/`digits` are the integer-coerced form values
(`z.coerce.number().int()`), the optional fields are the zod-`optional`
ones (`facing`/`plotType` have schema defaults applied during parsing). -/
structure BulkInput where
  blockId : String
  pre : Option String
  suffix : Option String
  startNumber : ℤ
  endNumber : ℤ
  digits : Option ℤ
  area : ℚ
  areaUnit : PlotAreaUnit
  pricePerUnit : ℚ
  facing : Option Facing
  plotType : Option PlotType
  dimensions : Option Dimensions
deriving DecidableEq

/-- Parsed value of `bulkCreatePlotSchema` (defaults applied). -/
structure BulkSpec where
  blockId : String
  pre : Option String
  suffix : Option String
  startNumber : ℤ
  endNumber : ℤ
  digits : ℤ
  area : ℚ
  areaUnit : PlotAreaUnit
  pricePerUnit : ℚ
  facing : Facing
  plotType : PlotType
  dimensions : Option Dimensions
deriving DecidableEq

/-- One zod issue: a field path plus a message. -/
structure FieldIssue where
  path : List String
  message : String
deriving DecidableEq

/-- The issues of the optional `dimensions` sub-schema (`dimensionSchema`):
positive `length` and `width` when the value is provided. -/
def dimensionIssues (o : Option Dimensions) : List FieldIssue :=
  match o with
  | some d =>
      (if d.length ≤ 0 then [⟨["dimensions", "length"], "Number must be greater than 0"⟩] else []) ++
      (if d.width ≤ 0 then [⟨["dimensions", "width"], "Number must be greater than 0"⟩] else [])
  | none => []

/-- The issues of the optional `digits` field: in `[1, 10]` when provided. -/
def digitsIssues (o : Option ℤ) : List FieldIssue :=
  match o with
  | some d => if d < 1 ∨ 10 < d then [⟨["digits"], "Number must be between 1 and 10"⟩] else []
  | none => []

/-- The issues of the optional `frontRoadWidth` field: positive when given. -/
def roadWidthIssues (o : Option ℚ) : List FieldIssue :=
  match o with
  | some w => if w ≤ 0 then [⟨["frontRoadWidth"], "Number must be greater than 0"⟩] else []
  | none => []

/-- The field-level (pre-`refine`) issues of `bulkCreatePlotSchema`:
`blockId` non-empty, `startNumber ≥ 1`, `endNumber ≥ 1`, `digits ∈ [1,10]`
when given, `area > 0`, `pricePerUnit > 0`, positive dimensions when given. -/
def bulkBaseIssues (s : BulkInput) : List FieldIssue :=
  (if s.blockId = "" then [⟨["blockId"], "Block is required"⟩] else []) ++
  (if s.startNumber < 1 then [⟨["startNumber"], "Start number is required"⟩] else []) ++
  (if s.endNumber < 1 then [⟨["endNumber"], "End number is required"⟩] else []) ++
  digitsIssues s.digits ++
  (if s.area ≤ 0 then [⟨["area"], "Area must be positive"⟩] else []) ++
  (if s.pricePerUnit ≤ 0 then [⟨["pricePerUnit"], "Price per unit must be positive"⟩] else []) ++
  dimensionIssues s.dimensions

/-- The issue produced by the schema's `.refine` clause, with
`path: ["endNumber"]` exactly as in the source. -/
def endNumberIssue : FieldIssue :=
  ⟨["endNumber"], "End number must be greater than or equal to start number"⟩

/-- `bulkCreatePlotSchema.parse`: field checks first; the `.refine`
(`endNumber ≥ startNumber`, scoped to the `endNumber` path) runs only when
the field checks pass, as zod refinements do; defaults (`digits` 1,
`facing` NORTH, `plotType` REGULAR) are applied to the parsed value. -/
def parseBulkCreate (s : BulkInput) : Except (List FieldIssue) BulkSpec :=
  let base := bulkBaseIssues s
  if base.isEmpty then
    if s.endNumber ≥ s.startNumber then
      .ok ⟨s.blockId, s.pre, s.suffix, s.startNumber, s.endNumber, s.digits.getD 1,
           s.area, s.areaUnit, s.pricePerUnit, s.facing.getD .NORTH,
           s.plotType.getD .REGULAR, s.dimensions⟩
    else .error [endNumberIssue]
  else .error base

/-- One element of the `plots` array built by `onBulkSubmit`: the `...rest`
fields plus `plotNumber`, `area`, `pricePerUnit` and the derived `price`. -/
structure BulkPlotRequest where
  blockId : String
  areaUnit : PlotAreaUnit
  facing : Facing
  plotType : PlotType
  dimensions : Option Dimensions
  plotNumber : String
  area : ℚ
  pricePerUnit : ℚ
  price : ℚ
deriving DecidableEq

/-- The plot number built for counter `i`:
`` `${prefix || ""}${i.toString().padStart(digits || 1, "0")}${suffix || ""}` ``.
`Option.getD ""` models `prefix || ""` (for a string, `undefined` and `""`
both collapse to `""`); `digits || 1` maps `0` to `1`. -/
def bulkPlotNumber (s : BulkSpec) (i : ℤ) : String :=
  (s.pre.getD "") ++
    padStartZeros (toString i) (if s.digits = 0 then 1 else s.digits).toNat ++
    (s.suffix.getD "")

/-- The request pushed for counter `i` in `onBulkSubmit`'s loop, with
`totalPrice` passed in (it is computed once, before the loop). -/
def bulkRequestAt (s : BulkSpec) (totalPrice : ℚ) (i : ℤ) : BulkPlotRequest :=
  ⟨s.blockId, s.areaUnit, s.facing, s.plotType, s.dimensions,
   bulkPlotNumber s i, s.area, s.pricePerUnit, totalPrice⟩

/-- `onBulkSubmit`'s generation loop (`CreatePlotDialog.tsx`):
`totalPrice = area * pricePerUnit` computed once, then
`for (let i = startNumber; i <= endNumber; i++)` pushes one request per `i`. -/
def generate (s : BulkSpec) : List BulkPlotRequest :=
  let totalPrice := s.area * s.pricePerUnit
  (List.range (s.endNumber + 1 - s.startNumber).toNat).map
    (fun k : ℕ => bulkRequestAt s totalPrice (s.startNumber + (k : ℤ)))

/-- The bulk tab's submit pipeline: `handleSubmit` validates against
`bulkCreatePlotSchema`, and only a successfully parsed value reaches
`onBulkSubmit`, which generates the requests. -/
def submitBulk (s : BulkInput) : Except (List FieldIssue) (List BulkPlotRequest) :=
  (parseBulkCreate s).map generate

/-- `CanvasPosition` from `booking.types.ts`. -/
structure CanvasPosition where
  x : ℚ
  y : ℚ
  width : ℚ
  height : ℚ
  rotation : Option ℚ
deriving DecidableEq

/-- The fields of `Plot` (`booking.types.ts`) read by the canvas reconciler. -/
structure Plot where
  _id : String
  plotNumber : String
  area : ℚ
  areaUnit : PlotAreaUnit
  dimensions : Option Dimensions
  price : ℚ
  pricePerUnit : ℚ
  facing : Facing
  plotType : PlotType
  frontRoadWidth : Option ℚ
  status : PlotStatus
  canvasPosition : Option CanvasPosition
deriving DecidableEq

/-- An x/y point (React Flow `node.position`). -/
structure XY where
  x : ℚ
  y : ℚ
deriving DecidableEq

/-- The `style: { width, height }` attached to canvas nodes. -/
structure NodeStyle where
  width : Option ℚ
  height : Option ℚ
deriving DecidableEq

/-- `PlotNodeData` (`CreateProjectDialog.tsx`). -/
structure PlotNodeData where
  plotNumber : String
  area : ℚ
  areaUnit : PlotAreaUnit
  price : ℚ
  pricePerUnit : ℚ
  facing : Facing
  plotType : PlotType
  status : PlotStatus
  dimensions : Option Dimensions
  frontRoadWidth : Option ℚ
  isNew : Bool
deriving DecidableEq

/-- A React Flow node as the reconciler uses it: id, position, data, style. -/
structure CanvasNode where
  id : String
  position : XY
  data : PlotNodeData
  style : NodeStyle
deriving DecidableEq

/-- JS `a % b`, for the nonnegative dividends and positive divisors used by
the fallback-position formula (there truncation and floor coincide). -/
def jsMod (a b : ℚ) : ℚ :=
  a - b * (Rat.floor (a / b) : ℚ)

/-- JS `v || d` on numbers: `0` (falsy) yields the default. -/
def jsOrQ (v : ℚ) (d : ℚ) : ℚ :=
  if v = 0 then d else v

/-- JS `o?.f || d` where `o` itself may be absent. -/
def optJsOrQ (o : Option ℚ) (d : ℚ) : ℚ :=
  match o with
  | some v => jsOrQ v d
  | none => d

/-- The fallback node position for a plot without `canvasPosition`:
`{ x: (p.area % 400) + 50, y: (p.area % 300) + 50 }`. -/
def plotFallbackPosition (p : Plot) : XY :=
  ⟨jsMod p.area 400 + 50, jsMod p.area 300 + 50⟩

/-- The node the plots-sync effect builds for a fetched plot `p`: id `p._id`,
position from `p.canvasPosition` when present and otherwise the area-derived
fallback, data copied with `isNew: false`, style width/height from
`p.canvasPosition?.width || 120` / `…height || 90`. -/
def plotToNode (p : Plot) : CanvasNode :=
  { id := p._id
    position :=
      match p.canvasPosition with
      | some cp => ⟨cp.x, cp.y⟩
      | none => plotFallbackPosition p
    data :=
      ⟨p.plotNumber, p.area, p.areaUnit, p.price, p.pricePerUnit, p.facing,
       p.plotType, p.status, p.dimensions, p.frontRoadWidth, false⟩
    style :=
      ⟨some (optJsOrQ ((p.canvasPosition).map CanvasPosition.width) 120),
       some (optJsOrQ ((p.canvasPosition).map CanvasPosition.height) 90)⟩ }

/-- The plots-sync `useEffect` of `PlotCanvasInner`: keep the previous nodes
flagged `isNew`, map every fetched plot to a fresh node, and return
`[...mapped, ...drafts]`. -/
def seedNodes (prevNodes : List CanvasNode) (plots : List Plot) : List CanvasNode :=
  plots.map plotToNode ++ prevNodes.filter (fun n => n.data.isNew)

/-- The draft node template built by `handleAddPlot` for draft index
`nextIndex` at timestamp `now` (`id: temp-${Date.now()}`): position offset by
the index, area 1200, price 0, pricePerUnit 0, NORTH, REGULAR, available. -/
def draftTemplate (nextIndex : ℕ) (now : ℕ) : CanvasNode :=
  { id := "temp-" ++ toString now
    position := ⟨100 + (nextIndex : ℚ) * 20, 100 + (nextIndex : ℚ) * 20⟩
    data :=
      ⟨"NEW-" ++ toString nextIndex, 1200, .SQ_FT, 0, 0, .NORTH, .REGULAR,
       .available, none, none, true⟩
    style := ⟨some 120, some 90⟩ }

/-- `handleAddPlot`: append one draft node (index = number of current drafts
plus one) and make it the sole selection. -/
def addDraft (nodes : List CanvasNode) (now : ℕ) : List CanvasNode × List String :=
  let nextIndex := (nodes.filter (fun n => n.data.isNew)).length + 1
  let newNode := draftTemplate nextIndex now
  (nodes ++ [newNode], [newNode.id])

/-- `pendingCreates`: the nodes flagged `isNew`. -/
def pendingCreates (nodes : List CanvasNode) : List CanvasNode :=
  nodes.filter (fun n => n.data.isNew)

/-- `pendingMoves`: the non-draft nodes whose id is in `dirtyNodeIds`. -/
def pendingMoves (nodes : List CanvasNode) (dirty : List String) : List CanvasNode :=
  nodes.filter (fun n => !n.data.isNew && dirty.contains n.id)

/-- The `canvasPosition` object built inside `handleSave` for a node:
current x/y plus `style.width || 120` and `style.height || 90`. -/
structure SavePosition where
  x : ℚ
  y : ℚ
  width : ℚ
  height : ℚ
deriving DecidableEq

/-- `handleSave`'s position payload for node `n`. -/
def nodeSavePosition (n : CanvasNode) : SavePosition :=
  ⟨n.position.x, n.position.y, optJsOrQ n.style.width 120, optJsOrQ n.style.height 90⟩

/-- One element of the bulk-create `plots` array built by `handleSave`. -/
structure CreatePayload where
  plotNumber : String
  area : ℚ
  areaUnit : PlotAreaUnit
  price : ℚ
  pricePerUnit : ℚ
  facing : Facing
  plotType : PlotType
  status : PlotStatus
  dimensions : Option Dimensions
  frontRoadWidth : Option ℚ
  canvasPosition : SavePosition
deriving DecidableEq

/-- One element of the bulk-update `plots` array built by `handleSave`:
it carries exactly the node id and the position payload, nothing else. -/
structure UpdateEntry where
  _id : String
  canvasPosition : SavePosition
deriving DecidableEq

/-- The bulk-create payload `handleSave` builds for a draft node. -/
def nodeToCreatePayload (n : CanvasNode) : CreatePayload :=
  ⟨n.data.plotNumber, n.data.area, n.data.areaUnit, n.data.price,
   n.data.pricePerUnit, n.data.facing, n.data.plotType, n.data.status,
   n.data.dimensions, n.data.frontRoadWidth, nodeSavePosition n⟩

/-- The bulk-update entry `handleSave` builds for a moved node. -/
def nodeToUpdateEntry (n : CanvasNode) : UpdateEntry :=
  ⟨n.id, nodeSavePosition n⟩

/-- What one call of `handleSave` dispatches: nothing (the reported
"Nothing to save" no-op), or up to two bulk requests. -/
inductive SaveDispatch
  | noop
  | dispatch (creates : Option (List CreatePayload)) (updates : Option (List UpdateEntry))
deriving DecidableEq

/-- `handleSave`'s request-building phase: a bulk-create job when
`pendingCreates` is non-empty, a bulk-update job when `pendingMoves` is
non-empty, and the reported no-op when neither job was pushed. -/
def handleSave (nodes : List CanvasNode) (dirty : List String) : SaveDispatch :=
  let pc := pendingCreates nodes
  let pm := pendingMoves nodes dirty
  if pc.isEmpty && pm.isEmpty then .noop
  else
    .dispatch (if pc.isEmpty then none else some (pc.map nodeToCreatePayload))
              (if pm.isEmpty then none else some (pm.map nodeToUpdateEntry))

/-- The reconciler's local state: nodes, selection, dirty set. -/
structure CanvasState where
  nodes : List CanvasNode
  selectedIds : List String
  dirtyIds : List String
deriving DecidableEq

/-- `handleSave`'s state effect, parameterised by the outcome of each bulk
call (`createOk`/`updateOk` are read only when the matching job was issued):
`Promise.all` resolves exactly when every issued job succeeds, and only then
are `dirtyNodeIds` and `selectedNodeIds` cleared; the `catch` branch leaves
the local state untouched and performs no retry. -/
def saveStateAfter (st : CanvasState) (createOk : Bool) (updateOk : Bool) : CanvasState :=
  let pc := pendingCreates st.nodes
  let pm := pendingMoves st.nodes st.dirtyIds
  if pc.isEmpty && pm.isEmpty then st
  else if (pc.isEmpty || createOk) && (pm.isEmpty || updateOk) then
    { st with dirtyIds := [], selectedIds := [] }
  else st

/-- The dirty-set effect of `updateSelectedNode` (`CreateProjectDialog.tsx`):
`anySelected` is true when some selected id resolves to a non-draft node
(or to no node at all: `!nodes.find(...)?.data.isNew` is true for
`undefined`), and in that case every selected id — draft ids included — is
added to `dirtyNodeIds`. -/
def updateFieldDirty (nodes : List CanvasNode) (selected : List String)
    (dirty : List String) : List String :=
  let anySelected := selected.any (fun sid =>
    match nodes.find? (fun n => n.id = sid) with
    | some n => !n.data.isNew
    | none => true)
  if anySelected then
    selected.foldl (fun acc sid => if acc.contains sid then acc else acc ++ [sid]) dirty
  else dirty

/-- `handleDeleteSelected`'s `removable`: the nodes whose id is selected. -/
def removableNodes (nodes : List CanvasNode) (selected : List String) : List CanvasNode :=
  nodes.filter (fun n => selected.contains n.id)

/-- The local-node effect of `handleDeleteSelected`: each removable draft is
removed from the working set (`setNodes(nds => nds.filter(n => n.id !== node.id))`);
removable persisted nodes are left to the re-seed. -/
def deleteLocalNodes (nodes : List CanvasNode) (selected : List String) : List CanvasNode :=
  (removableNodes nodes selected).foldl
    (fun acc dn => if dn.data.isNew then acc.filter (fun n => n.id ≠ dn.id) else acc)
    nodes

/-- The deletion jobs pushed by `handleDeleteSelected`: one
`deletePlot({plotId: node.id, projectId})` per removable non-draft node, all
pushed before any is awaited. -/
def deleteJobs (nodes : List CanvasNode) (selected : List String) : List String :=
  ((removableNodes nodes selected).filter (fun n => !n.data.isNew)).map
    (fun n => n.id)

/-- Join semantics of the dispatched deletions: each job settles on its own
outcome, so the set of completed deletions is exactly the jobs whose own
outcome succeeded — a sibling's rejection removes nothing from it. -/
def completedDeletes (jobs : List String) (outcome : String → Bool) : List String :=
  jobs.filter outcome

/-- The clone `handleDuplicate` builds for source node `n` at copy index
`idx` and timestamp `now`: id `temp-${Date.now()}-${idx}`, plot number
suffixed `-copy`, `isNew: true`, position offset by (+20, +20). -/
def copyOf (now : ℕ) (idx : ℕ) (n : CanvasNode) : CanvasNode :=
  { n with
    id := "temp-" ++ toString now ++ "-" ++ toString idx
    data := { n.data with plotNumber := n.data.plotNumber ++ "-copy", isNew := true }
    position := ⟨n.position.x + 20, n.position.y + 20⟩ }

/-- `handleDuplicate`: no-op when the selection (or the set of selected
nodes) is empty; otherwise append one clone per selected node and select
the clones. -/
def duplicateSelected (nodes : List CanvasNode) (selected : List String) (now : ℕ) :
    List CanvasNode × List String :=
  if selected.isEmpty then (nodes, selected)
  else
    let toCopy := nodes.filter (fun n => selected.contains n.id)
    if toCopy.isEmpty then (nodes, selected)
    else
      let copies := toCopy.enum.map (fun p => copyOf now p.1 p.2)
      (nodes ++ copies, copies.map (fun c => c.id))

/-- Raw input to `createPlotSchema` (the single-plot tab). -/
structure SingleInput where
  blockId : String
  plotNumber : String
  area : ℚ
  areaUnit : PlotAreaUnit
  price : ℚ
  pricePerUnit : ℚ
  facing : Facing
  plotType : Option PlotType
  frontRoadWidth : Option ℚ
  dimensions : Option Dimensions
deriving DecidableEq

/-- Parsed value of `createPlotSchema` (the payload `onSingleSubmit`
dispatches, minus the ambient `projectId`). -/
structure SinglePayload where
  blockId : String
  plotNumber : String
  area : ℚ
  areaUnit : PlotAreaUnit
  price : ℚ
  pricePerUnit : ℚ
  facing : Facing
  plotType : PlotType
  frontRoadWidth : Option ℚ
  dimensions : Option Dimensions
deriving DecidableEq

/-- The field-level issues of `createPlotSchema`. -/
def singleIssues (s : SingleInput) : List FieldIssue :=
  (if s.blockId = "" then [⟨["blockId"], "Block is required"⟩] else []) ++
  (if s.plotNumber = "" then [⟨["plotNumber"], "Plot number is required"⟩] else []) ++
  (if s.area ≤ 0 then [⟨["area"], "Area must be positive"⟩] else []) ++
  (if s.price ≤ 0 then [⟨["price"], "Price must be positive"⟩] else []) ++
  (if s.pricePerUnit ≤ 0 then [⟨["pricePerUnit"], "Price per unit must be positive"⟩] else []) ++
  roadWidthIssues s.frontRoadWidth ++
  dimensionIssues s.dimensions

/-- `createPlotSchema.parse`: `onSingleSubmit` only ever receives a value
that passed these checks (`handleSubmit` validates first). -/
def parseCreatePlot (s : SingleInput) : Except (List FieldIssue) SinglePayload :=
  let issues := singleIssues s
  if issues.isEmpty then
    .ok ⟨s.blockId, s.plotNumber, s.area, s.areaUnit, s.price, s.pricePerUnit,
         s.facing, s.plotType.getD .REGULAR, s.frontRoadWidth, s.dimensions⟩
  else .error issues

/-- The spec's per-field validation rule for an optional `dimensions` value:
`length` and `width` positive when present. -/
def DimsValid (o : Option Dimensions) : Prop :=
  match o with
  | some d => 0 < d.length ∧ 0 < d.width
  | none => True

instance instDecidableDimsValid : (o : Option Dimensions) → Decidable (DimsValid o)
  | some _ => inferInstanceAs (Decidable (_ ∧ _))
  | none => inferInstanceAs (Decidable True)

/-- The spec's field-level validation rules, read on a bulk-generated
plot-creation request: `area > 0`, `price > 0`, `pricePerUnit > 0`,
non-empty `plotNumber`, positive dimensions when present (the enum fields
are restricted by typing). -/
def BulkRequestMeetsFieldRules (r : BulkPlotRequest) : Prop :=
  0 < r.area ∧ 0 < r.price ∧ 0 < r.pricePerUnit ∧ r.plotNumber ≠ "" ∧
    DimsValid r.dimensions

/-- The same field-level validation rules, read on a canvas bulk-create
payload. -/
def CreatePayloadMeetsFieldRules (r : CreatePayload) : Prop :=
  0 < r.area ∧ 0 < r.price ∧ 0 < r.pricePerUnit ∧ r.plotNumber ≠ "" ∧
    DimsValid r.dimensions

/-- The same field-level validation rules, read on a single-plot payload. -/
def SinglePayloadMeetsFieldRules (r : SinglePayload) : Prop :=
  0 < r.area ∧ 0 < r.price ∧ 0 < r.pricePerUnit ∧ r.plotNumber ≠ "" ∧
    DimsValid r.dimensions

/-- The status-update request dispatched by `handleUpdateStatus`. -/
structure StatusUpdateRequest where
  plotId : String
  status : PlotStatus
deriving DecidableEq

/-- `handleUpdateStatus` (`ProjectPage`): dispatch nothing when the plot id
or the new status is missing or the new status equals the current one;
otherwise dispatch `updatePlotStatus` for the chosen status. -/
def handleUpdateStatus (plotId : Option String) (currentStatus : Option PlotStatus)
    (newStatus : Option PlotStatus) : Option StatusUpdateRequest :=
  match plotId, newStatus with
  | some pid, some ns =>
      if some ns = currentStatus then none else some ⟨pid, ns⟩
  | _, _ => none

/-- The options offered by the status-update dialog's `Select`: all four
statuses. -/
def statusSelectOptions : List PlotStatus :=
  [.available, .booked, .reserved, .sold]

/-! ### Helper lemmas -/

lemma padStartZeros_length (s : String) (n : ℕ) :
    (padStartZeros s n).length = max n s.length := by
  simp only [padStartZeros, String.length_append, String.length_mk,
    List.length_replicate]
  omega

lemma generate_length (s : BulkSpec) :
    (generate s).length = (s.endNumber + 1 - s.startNumber).toNat := by
  simp only [generate, List.length_map, List.length_range]

/-! ### Claim theorems -/

/-- Claim C2: for every valid spec with `endNumber ≥ startNumber`, `generate`
returns exactly `endNumber - startNumber + 1` requests; the `k`-th request
(so the requests are ordered ascending in the counter `i = startNumber + k`)
has `plotNumber = prefix ++ zeroPad(i, digits) ++ suffix`; every request
carries the batch price `area * pricePerUnit` computed once for the whole
batch; and `zeroPad` pads to `digits` length, never truncating. -/
theorem bulk_generate_count_order_price (s : BulkSpec)
    (h : s.startNumber ≤ s.endNumber) :
    (((generate s).length : ℤ) = s.endNumber - s.startNumber + 1) ∧
    (∀ k : ℕ, k < (generate s).length →
      ∃ r : BulkPlotRequest, (generate s)[k]? = some r ∧
        r.plotNumber = bulkPlotNumber s (s.startNumber + k) ∧
        r.price = s.area * s.pricePerUnit) ∧
    (∀ r ∈ generate s, r.price = s.area * s.pricePerUnit) ∧
    (∀ (str : String) (d : ℕ), (padStartZeros str d).length = max d str.length) := by
  refine ⟨?_, ?_, ?_, fun str d => padStartZeros_length str d⟩
  · rw [generate_length]
    omega
  · intro k hk
    rw [generate_length] at hk
    refine ⟨bulkRequestAt s (s.area * s.pricePerUnit) (s.startNumber + k), ?_, rfl, rfl⟩
    simp only [generate, List.getElem?_map, List.getElem?_range hk]
    rfl
  · intro r hr
    simp only [generate, List.mem_map, List.mem_range] at hr
    obtain ⟨k, _, rfl⟩ := hr
    rfl

/-- Concrete instance of C2: prefix `A-`, numbers 1–5, 3 digits. -/
def exBulkSpec : BulkSpec :=
  ⟨"blk", some "A-", some "", 1, 5, 3, 600, .SQ_FT, 100, .NORTH, .REGULAR, none⟩

theorem bulk_generate_count_order_price_witness :
    ((generate exBulkSpec).length : ℤ) =
      exBulkSpec.endNumber - exBulkSpec.startNumber + 1 :=
  (bulk_generate_count_order_price exBulkSpec (by decide)).1

/-- Claim C5: when `endNumber < startNumber` (and the field-level checks
pass), the bulk pipeline fails with a `ValidationError` attached exactly to
the `endNumber` field, before any request is produced. -/
theorem bulk_end_before_start_field_error (s : BulkInput)
    (hbase : bulkBaseIssues s = []) (hlt : s.endNumber < s.startNumber) :
    parseBulkCreate s = .error [endNumberIssue] ∧
    submitBulk s = .error [endNumberIssue] ∧
    endNumberIssue.path = ["endNumber"] := by
  have h1 : ¬ s.endNumber ≥ s.startNumber := not_le.mpr hlt
  refine ⟨?_, ?_, rfl⟩
  · simp [parseBulkCreate, hbase, h1]
  · simp [submitBulk, parseBulkCreate, hbase, h1, Except.map]

/-- Concrete instance of C5: `startNumber 5`, `endNumber 3`. -/
def exBadBulkInput : BulkInput :=
  ⟨"blk", some "P-", none, 5, 3, some 3, 600, .SQ_FT, 100, none, none, none⟩

theorem bulk_end_before_start_field_error_witness :
    submitBulk exBadBulkInput = .error [endNumberIssue] :=
  (bulk_end_before_start_field_error exBadBulkInput (by decide) (by decide)).2.1

lemma plotToNode_isNew (p : Plot) : (plotToNode p).data.isNew = false := rfl

lemma filter_isNew_map_plotToNode (plots : List Plot) :
    (plots.map plotToNode).filter (fun n => n.data.isNew) = [] := by
  induction plots with
  | nil => rfl
  | cons p ps ih => simp [List.filter_cons, plotToNode_isNew, ih]

lemma filter_not_isNew_map_plotToNode (plots : List Plot) :
    (plots.map plotToNode).filter (fun n => !n.data.isNew) = plots.map plotToNode := by
  induction plots with
  | nil => rfl
  | cons p ps ih => simp [List.filter_cons, plotToNode_isNew, ih]

/-- Claim C1: seeding is a non-destructive merge — the nodes flagged `isNew`
survive unchanged (the draft sublist of the result is exactly the draft
sublist of the previous nodes), the non-draft nodes of the result are
exactly the fetched plots mapped 1:1 (in particular keyed by each plot's
id), and each mapped node takes the plot's `canvasPosition` when present
and otherwise the deterministic area-derived fallback position. -/
theorem seeding_is_nondestructive_merge (prevNodes : List CanvasNode)
    (plots : List Plot) :
    ((seedNodes prevNodes plots).filter (fun n => n.data.isNew) =
      prevNodes.filter (fun n => n.data.isNew)) ∧
    ((seedNodes prevNodes plots).filter (fun n => !n.data.isNew) =
      plots.map plotToNode) ∧
    (∀ p : Plot, (plotToNode p).id = p._id ∧ (plotToNode p).data.isNew = false ∧
      (∀ cp, p.canvasPosition = some cp → (plotToNode p).position = ⟨cp.x, cp.y⟩) ∧
      (p.canvasPosition = none → (plotToNode p).position = plotFallbackPosition p)) := by
  refine ⟨?_, ?_, ?_⟩
  · rw [seedNodes, List.filter_append, filter_isNew_map_plotToNode, List.nil_append,
      List.filter_filter]
    simp
  · rw [seedNodes, List.filter_append, filter_not_isNew_map_plotToNode,
      List.filter_filter]
    have : (prevNodes.filter fun n => (!n.data.isNew) && n.data.isNew) = [] := by
      rw [List.filter_eq_nil_iff]
      intro n _
      simp
    rw [this, List.append_nil]
  · intro p
    refine ⟨rfl, rfl, ?_, ?_⟩
    · intro cp hcp
      simp [plotToNode, hcp]
    · intro hcp
      simp [plotToNode, hcp]

/-- Concrete seeding instance: one draft node, one fetched plot without a
stored `canvasPosition`. -/
def exDraftNode : CanvasNode := draftTemplate 1 0

/-- Concrete fetched plot (area 1234, no stored canvas position). -/
def exPlot : Plot :=
  ⟨"pl1", "A-001", 1234, .SQ_FT, none, 123400, 100, .NORTH, .REGULAR, none,
   .available, none⟩

theorem seeding_is_nondestructive_merge_witness :
    ((seedNodes [exDraftNode] [exPlot]).filter (fun n => n.data.isNew) =
      [exDraftNode]) ∧
    (plotToNode exPlot).position = plotFallbackPosition exPlot := by
  constructor
  · rw [(seeding_is_nondestructive_merge [exDraftNode] [exPlot]).1]
    simp [exDraftNode, draftTemplate]
  · exact ((seeding_is_nondestructive_merge [exDraftNode] [exPlot]).2.2 exPlot).2.2.2 rfl

/-- Claim C3: `handleSave` partitions the nodes into `pendingCreates` (the
drafts) and `pendingMoves` (non-draft nodes whose id is dirty); every
bulk-update entry is exactly `{id, canvasPosition}` for a pending-move node;
no bulk-create request is issued when `pendingCreates` is empty — in
particular a single pending move yields one bulk-update containing only that
node and no create request; and when both sets are empty the save is the
reported no-op. -/
theorem save_partitions_and_minimal_requests (nodes : List CanvasNode)
    (dirty : List String) :
    (∀ n, n ∈ pendingCreates nodes ↔ n ∈ nodes ∧ n.data.isNew = true) ∧
    (∀ n, n ∈ pendingMoves nodes dirty ↔
        n ∈ nodes ∧ n.data.isNew = false ∧ n.id ∈ dirty) ∧
    (handleSave nodes dirty = .noop ↔
        pendingCreates nodes = [] ∧ pendingMoves nodes dirty = []) ∧
    (∀ cs us, handleSave nodes dirty = .dispatch cs us →
        (cs = none ↔ pendingCreates nodes = []) ∧
        ∀ l, us = some l →
          l = (pendingMoves nodes dirty).map (fun n => ⟨n.id, nodeSavePosition n⟩)) ∧
    (∀ m, pendingCreates nodes = [] → pendingMoves nodes dirty = [m] →
        handleSave nodes dirty = .dispatch none (some [⟨m.id, nodeSavePosition m⟩])) := by
  refine ⟨?_, ?_, ?_, ?_, ?_⟩
  · intro n
    simp [pendingCreates, List.mem_filter]
  · intro n
    simp [pendingMoves, List.mem_filter, List.elem_iff, Bool.not_eq_true', and_assoc]
  · by_cases h1 : pendingCreates nodes = [] <;> by_cases h2 : pendingMoves nodes dirty = [] <;>
      simp [handleSave, h1, h2, List.isEmpty_iff, nodeToUpdateEntry]
  · intro cs us hsave
    by_cases h1 : pendingCreates nodes = [] <;> by_cases h2 : pendingMoves nodes dirty = [] <;>
      simp [handleSave, h1, h2, List.isEmpty_iff] at hsave
    · obtain ⟨rfl, rfl⟩ := hsave
      simp [h1, nodeToUpdateEntry]
    · obtain ⟨rfl, rfl⟩ := hsave
      simp [h1, h2]
    · obtain ⟨rfl, rfl⟩ := hsave
      simp [h1, nodeToUpdateEntry]
  · intro m h1 h2
    simp [handleSave, h1, h2, List.isEmpty_iff, nodeToUpdateEntry]

/-- Concrete persisted (non-draft) canvas node. -/
def exPersistedNode : CanvasNode :=
  ⟨"p1", ⟨10, 20⟩,
   ⟨"A-001", 1200, .SQ_FT, 120000, 100, .NORTH, .REGULAR, .available, none, none, false⟩,
   ⟨some 120, some 90⟩⟩

theorem save_partitions_and_minimal_requests_witness :
    handleSave [exPersistedNode] ["p1"] =
      .dispatch none (some [⟨exPersistedNode.id, nodeSavePosition exPersistedNode⟩]) :=
  (save_partitions_and_minimal_requests [exPersistedNode] ["p1"]).2.2.2.2
    exPersistedNode (by decide) (by decide)

/-- Claim C4: given that at least one bulk call is issued, the save clears
`dirtyIds` and `selectedIds` exactly when every issued bulk call succeeds
(`Promise.all` resolves); when either issued call rejects the whole local
state — nodes, selection, dirty set — is left in its pre-save shape (nothing
is rolled back locally and the other call's server-side effect is not
compensated), and no new dispatch is produced by the failure path. -/
theorem save_clears_iff_all_succeed (st : CanvasState) (createOk updateOk : Bool)
    (hjobs : ¬(pendingCreates st.nodes = [] ∧ pendingMoves st.nodes st.dirtyIds = [])) :
    ((pendingCreates st.nodes = [] ∨ createOk = true) ∧
        (pendingMoves st.nodes st.dirtyIds = [] ∨ updateOk = true) →
      saveStateAfter st createOk updateOk =
        { st with dirtyIds := [], selectedIds := [] }) ∧
    (¬((pendingCreates st.nodes = [] ∨ createOk = true) ∧
        (pendingMoves st.nodes st.dirtyIds = [] ∨ updateOk = true)) →
      saveStateAfter st createOk updateOk = st) := by
  by_cases h1 : pendingCreates st.nodes = [] <;>
    by_cases h2 : pendingMoves st.nodes st.dirtyIds = [] <;>
      cases createOk <;> cases updateOk <;>
        simp_all [saveStateAfter, List.isEmpty_iff]

/-- Concrete draft node together with a dirty persisted node. -/
def exDraftAndMovedState : CanvasState :=
  ⟨[draftTemplate 1 0, exPersistedNode], ["p1"], ["p1"]⟩

theorem save_clears_iff_all_succeed_witness :
    saveStateAfter exDraftAndMovedState true false = exDraftAndMovedState :=
  (save_clears_iff_all_succeed exDraftAndMovedState true false
      (by intro h; exact absurd h.1 (by simp [exDraftAndMovedState, pendingCreates,
        draftTemplate, exPersistedNode]))).2
    (by
      intro h
      rcases h.2 with h2 | h2
      · exact absurd h2 (by simp [exDraftAndMovedState, pendingMoves,
          draftTemplate, exPersistedNode])
      · exact Bool.false_ne_true h2)

/-- Claim C6: the permitted-transition relation of the status dialog is
exactly `{(s, t) : s ≠ t}` over the four statuses: a request is dispatched
iff the chosen status differs from the current one (the equal case is
rejected caller-side, with nothing dispatched), every distinct pair
dispatches the corresponding update, and the dialog's `Select` offers all
four statuses, so all four are mutually reachable. -/
theorem status_any_to_any_except_self :
    (∀ (pid : String) (s t : PlotStatus),
      (handleUpdateStatus (some pid) (some s) (some t)).isSome = true ↔ s ≠ t) ∧
    (∀ (pid : String) (s t : PlotStatus), s ≠ t →
      handleUpdateStatus (some pid) (some s) (some t) = some ⟨pid, t⟩) ∧
    (∀ (pid : String) (s : PlotStatus),
      handleUpdateStatus (some pid) (some s) (some s) = none) ∧
    (∀ t : PlotStatus, t ∈ statusSelectOptions) := by
  refine ⟨?_, ?_, ?_, ?_⟩
  · intro pid s t
    by_cases h : t = s
    · simp [handleUpdateStatus, h]
    · simp [handleUpdateStatus, h]
      exact fun hst => h hst.symm
  · intro pid s t h
    simp [handleUpdateStatus]
    exact fun hts => h hts.symm
  · intro pid s
    simp [handleUpdateStatus]
  · intro t
    cases t <;> simp [statusSelectOptions]

theorem status_any_to_any_except_self_witness :
    handleUpdateStatus (some "p1") (some .sold) (some .available) =
      some ⟨"p1", .available⟩ :=
  status_any_to_any_except_self.2.1 "p1" .sold .available (by decide)

lemma mem_foldl_addUnique (l : List String) (acc : List String) (x : String)
    (hx : x ∈ acc ∨ x ∈ l) :
    x ∈ l.foldl (fun a s => if a.contains s then a else a ++ [s]) acc := by
  induction l generalizing acc with
  | nil => simpa using hx
  | cons s ls ih =>
    simp only [List.foldl_cons]
    rcases hx with hacc | hmem
    · refine ih _ (Or.inl ?_)
      by_cases hc : acc.contains s = true
      · rw [if_pos hc]
        exact hacc
      · rw [if_neg hc]
        exact List.mem_append_left _ hacc
    · rcases List.mem_cons.mp hmem with rfl | hls
      · refine ih _ (Or.inl ?_)
        by_cases hc : acc.contains x = true
        · rw [if_pos hc]
          exact List.elem_iff.mp hc
        · rw [if_neg hc]
          exact List.mem_append_right _ (List.mem_singleton_self x)
      · exact ih _ (Or.inr hls)

/-- Claim C8: a locally generated draft id is never transmitted as a real
plot id — every entry of every bulk-update built by `handleSave` carries the
id of some non-draft (and dirty) node — even though `updateSelectedNode`
adds every selected id, draft ids included, to `dirtyNodeIds` whenever at
least one selected id resolves to a non-draft node (or to no node at all). -/
theorem bulk_update_never_carries_draft_id (nodes : List CanvasNode)
    (dirty : List String) :
    (∀ cs l e, handleSave nodes dirty = .dispatch cs (some l) → e ∈ l →
      ∃ n, n ∈ nodes ∧ n.data.isNew = false ∧ e._id = n.id ∧ n.id ∈ dirty) ∧
    (∀ selected : List String,
      (selected.any (fun sid =>
        match nodes.find? (fun n => n.id = sid) with
        | some n => !n.data.isNew
        | none => true)) = true →
      ∀ sid ∈ selected, sid ∈ updateFieldDirty nodes selected dirty) := by
  constructor
  · intro cs l e hsave hel
    have hl : l = (pendingMoves nodes dirty).map nodeToUpdateEntry := by
      by_cases h1 : (pendingCreates nodes).isEmpty <;>
        by_cases h2 : (pendingMoves nodes dirty).isEmpty <;>
          simp [handleSave, h1, h2] at hsave <;> tauto
    rw [hl] at hel
    obtain ⟨n, hn, rfl⟩ := List.mem_map.mp hel
    have hn' := List.mem_filter.mp hn
    refine ⟨n, hn'.1, ?_, rfl, ?_⟩
    · have := hn'.2
      simp only [Bool.and_eq_true, Bool.not_eq_true'] at this
      exact this.1
    · have := hn'.2
      simp only [Bool.and_eq_true] at this
      exact List.elem_iff.mp this.2
  · intro selected hany sid hsid
    simp only [updateFieldDirty, hany, if_pos]
    exact mem_foldl_addUnique selected dirty sid (Or.inr hsid)

/-- Concrete draft node with id `temp-0`. -/
def exDraftTempNode : CanvasNode :=
  ⟨"temp-0", ⟨120, 120⟩,
   ⟨"NEW-1", 1200, .SQ_FT, 0, 0, .NORTH, .REGULAR, .available, none, none, true⟩,
   ⟨some 120, some 90⟩⟩

/-- Concrete working set: one draft plus one persisted node, both selected. -/
def exMixedNodes : List CanvasNode := [exDraftTempNode, exPersistedNode]

theorem bulk_update_never_carries_draft_id_witness :
    ("temp-0" ∈ updateFieldDirty exMixedNodes ["temp-0", "p1"] []) ∧
    (∃ n, n ∈ exMixedNodes ∧ n.data.isNew = false ∧
      (nodeToUpdateEntry exPersistedNode)._id = n.id ∧ n.id ∈ ["temp-0", "p1"]) := by
  constructor
  · exact (bulk_update_never_carries_draft_id exMixedNodes []).2 ["temp-0", "p1"]
      (by decide) "temp-0" (by decide)
  · exact (bulk_update_never_carries_draft_id exMixedNodes ["temp-0", "p1"]).1
      (some [nodeToCreatePayload exDraftTempNode]) [nodeToUpdateEntry exPersistedNode]
      (nodeToUpdateEntry exPersistedNode) (by decide) (by decide)

lemma mem_foldl_deleteDrafts (rm : List CanvasNode) (acc : List CanvasNode)
    (m : CanvasNode)
    (hm : m ∈ rm.foldl
      (fun a dn => if dn.data.isNew then a.filter (fun n => n.id ≠ dn.id) else a) acc) :
    m ∈ acc := by
  induction rm generalizing acc with
  | nil => simpa using hm
  | cons r rs ih =>
    simp only [List.foldl_cons] at hm
    have := ih _ hm
    by_cases hr : r.data.isNew = true
    · rw [if_pos hr] at this
      exact (List.mem_filter.mp this).1
    · rwa [if_neg hr] at this

lemma foldl_deleteDrafts_removes (rm : List CanvasNode) (acc : List CanvasNode)
    (dn : CanvasNode) (hdn : dn ∈ rm) (hnew : dn.data.isNew = true)
    (m : CanvasNode)
    (hm : m ∈ rm.foldl
      (fun a d => if d.data.isNew then a.filter (fun n => n.id ≠ d.id) else a) acc) :
    m.id ≠ dn.id := by
  induction rm generalizing acc with
  | nil => simp at hdn
  | cons r rs ih =>
    simp only [List.foldl_cons] at hm
    rcases List.mem_cons.mp hdn with rfl | hrs
    · have hmem := mem_foldl_deleteDrafts rs _ m hm
      rw [if_pos hnew] at hmem
      have := (List.mem_filter.mp hmem).2
      simpa using this
    · exact ih _ hrs hm

/-- Claim C9: `deleteSelected` removes every selected draft from the local
working set with zero network calls (a selection consisting only of drafts
issues no request at all); it issues exactly one deletion request per
selected non-draft node, all computed before any outcome is observed; and
each dispatched deletion completes based on its own outcome alone, so one
rejection does not remove a sibling's completion. -/
theorem delete_selected_local_vs_network (nodes : List CanvasNode)
    (selected : List String) :
    (∀ dn, dn ∈ removableNodes nodes selected → dn.data.isNew = true →
      ∀ m ∈ deleteLocalNodes nodes selected, m.id ≠ dn.id) ∧
    (deleteJobs nodes selected =
      (nodes.filter (fun n => !n.data.isNew && selected.contains n.id)).map
        (fun n => n.id)) ∧
    ((∀ n ∈ removableNodes nodes selected, n.data.isNew = true) →
      deleteJobs nodes selected = []) ∧
    (∀ (outcome : String → Bool) (j : String), j ∈ deleteJobs nodes selected →
      outcome j = true → j ∈ completedDeletes (deleteJobs nodes selected) outcome) := by
  refine ⟨?_, ?_, ?_, ?_⟩
  · intro dn hdn hnew m hm
    exact foldl_deleteDrafts_removes _ _ dn hdn hnew m hm
  · rw [deleteJobs, removableNodes, List.filter_filter]
  · intro hall
    rw [deleteJobs]
    have : (removableNodes nodes selected).filter (fun n => !n.data.isNew) = [] := by
      rw [List.filter_eq_nil_iff]
      intro n hn
      simp [hall n hn]
    rw [this, List.map_nil]
  · intro outcome j hj hout
    exact List.mem_filter.mpr ⟨hj, hout⟩

theorem delete_selected_local_vs_network_witness :
    (∀ m ∈ deleteLocalNodes [exDraftTempNode] ["temp-0"], m.id ≠ exDraftTempNode.id) ∧
    deleteJobs [exDraftTempNode] ["temp-0"] = [] := by
  constructor
  · exact (delete_selected_local_vs_network [exDraftTempNode] ["temp-0"]).1
      exDraftTempNode (by decide) (by decide)
  · exact (delete_selected_local_vs_network [exDraftTempNode] ["temp-0"]).2.2.1
      (by decide)

/-- Concrete working set for the duplicate-id collision: the selected node's
id is exactly the id `handleDuplicate` will generate for its clone
(`temp-${Date.now()}-0` with `Date.now() = 5`) — the shape produced by an
earlier duplicate in the same millisecond. -/
def exCollidingDraft : CanvasNode :=
  ⟨"temp-5-0", ⟨0, 0⟩,
   ⟨"P1", 1200, .SQ_FT, 0, 0, .NORTH, .REGULAR, .available, none, none, true⟩,
   ⟨some 120, some 90⟩⟩

/-- Counterexample to C10 as stated: duplicating the node `temp-5-0` at
timestamp 5 appends a clone whose id equals the existing node's id, so the
clone's "new temporary id" is not distinct from every existing node id. -/
theorem duplicate_same_millisecond_id_collision :
    ((duplicateSelected [exCollidingDraft] ["temp-5-0"] 5).1.map
        (fun n => n.id)) = ["temp-5-0", "temp-5-0"] ∧
    (copyOf 5 0 exCollidingDraft).id = exCollidingDraft.id := by
  constructor <;> rfl

/-- Claim C10 (amended): `duplicateSelected` on an empty selection is a
no-op; otherwise it appends exactly one clone per selected node, leaving
every source node unchanged in place; each clone keeps the source's data
with the plot number suffixed `-copy`, is offset by the fixed (+20, +20)
delta, is flagged `isNew = true` regardless of the source, and carries the
id `temp-<now>-<index>` — which is distinct from every existing node id
provided no existing node already carries an id of that timestamp-and-index
shape (a clone made in the same millisecond as an earlier clone can
collide). -/
theorem duplicate_selected_clone_properties (nodes : List CanvasNode)
    (selected : List String) (now : ℕ) :
    (selected = [] → duplicateSelected nodes selected now = (nodes, selected)) ∧
    (∀ (idx : ℕ) (n : CanvasNode),
      (copyOf now idx n).id = "temp-" ++ toString now ++ "-" ++ toString idx ∧
      (copyOf now idx n).data.plotNumber = n.data.plotNumber ++ "-copy" ∧
      (copyOf now idx n).data.isNew = true ∧
      (copyOf now idx n).position = ⟨n.position.x + 20, n.position.y + 20⟩ ∧
      (copyOf now idx n).data.area = n.data.area ∧
      (copyOf now idx n).data.price = n.data.price ∧
      (copyOf now idx n).data.pricePerUnit = n.data.pricePerUnit ∧
      (copyOf now idx n).data.status = n.data.status ∧
      (copyOf now idx n).style = n.style) ∧
    (nodes.filter (fun n => selected.contains n.id) ≠ [] →
      (duplicateSelected nodes selected now).1 =
        nodes ++ (nodes.filter (fun n => selected.contains n.id)).enum.map
          (fun p => copyOf now p.1 p.2) ∧
      (duplicateSelected nodes selected now).1.take nodes.length = nodes) ∧
    (((nodes.filter (fun n => selected.contains n.id)).enum.map
        (fun p => copyOf now p.1 p.2)).length =
      (nodes.filter (fun n => selected.contains n.id)).length) ∧
    ((∀ m ∈ nodes, ∀ k < (nodes.filter (fun n => selected.contains n.id)).length,
        m.id ≠ "temp-" ++ toString now ++ "-" ++ toString k) →
      ∀ c ∈ (nodes.filter (fun n => selected.contains n.id)).enum.map
          (fun p => copyOf now p.1 p.2),
        ∀ m ∈ nodes, c.id ≠ m.id) := by
  refine ⟨?_, ?_, ?_, ?_, ?_⟩
  · intro h
    subst h
    rfl
  · intro idx n
    exact ⟨rfl, rfl, rfl, rfl, rfl, rfl, rfl, rfl, rfl⟩
  · intro htc
    have hsel : selected ≠ [] := by
      intro h
      rw [h] at htc
      simp at htc
    have hex : ¬ (∀ a ∈ nodes, a.id ∉ selected) := by
      obtain ⟨n, hn⟩ := List.exists_mem_of_ne_nil _ htc
      have hmem := List.mem_filter.mp hn
      intro hall
      exact hall n hmem.1 (by simpa using hmem.2)
    have happ : (duplicateSelected nodes selected now).1 =
        nodes ++ (nodes.filter (fun n => selected.contains n.id)).enum.map
          (fun p => copyOf now p.1 p.2) := by
      simp [duplicateSelected, hsel, hex]
    refine ⟨happ, ?_⟩
    rw [happ, List.take_left]
  · rw [List.length_map, List.enum_length]
  · intro hfresh c hc m hm
    obtain ⟨p, hp, rfl⟩ := List.mem_map.mp hc
    have hlt : p.1 < (nodes.filter (fun n => selected.contains n.id)).length :=
      List.fst_lt_of_mem_enum hp
    have hne := hfresh m hm p.1 hlt
    exact fun h => hne h.symm

theorem duplicate_selected_clone_properties_witness :
    (copyOf 7 0 exPersistedNode).id ≠ exPersistedNode.id :=
  (duplicate_selected_clone_properties [exPersistedNode] ["p1"] 7).2.2.2.2
    (by decide) (copyOf 7 0 exPersistedNode)
    (by
      have hf : ([exPersistedNode].filter (fun n => (["p1"] : List String).contains n.id))
          = [exPersistedNode] := by decide
      rw [hf]
      exact List.mem_singleton_self _)
    exPersistedNode (List.mem_singleton_self _)

lemma ite_singleton_ne_nil {c : Prop} [Decidable c] {x : FieldIssue} (hc : c) :
    (if c then [x] else []) ≠ [] := by
  simp [hc]

lemma dimensionIssues_nil (o : Option Dimensions) (h : dimensionIssues o = []) :
    DimsValid o := by
  cases o with
  | none => trivial
  | some d =>
    simp only [dimensionIssues, List.append_eq_nil] at h
    constructor
    · by_contra hle
      exact ite_singleton_ne_nil (not_lt.mp hle) h.1
    · by_contra hle
      exact ite_singleton_ne_nil (not_lt.mp hle) h.2

lemma digitsIssues_nil (o : Option ℤ) (h : digitsIssues o = []) :
    1 ≤ o.getD 1 := by
  cases o with
  | none => simp
  | some d =>
    simp only [digitsIssues] at h
    simp only [Option.getD_some]
    by_contra hle
    exact ite_singleton_ne_nil (Or.inl (by omega)) h

lemma bulkBaseIssues_nil (s : BulkInput) (h : bulkBaseIssues s = []) :
    0 < s.area ∧ 0 < s.pricePerUnit ∧ DimsValid s.dimensions ∧ 1 ≤ s.digits.getD 1 := by
  rw [bulkBaseIssues] at h
  simp only [List.append_eq_nil] at h
  obtain ⟨⟨⟨⟨⟨⟨hBlock, hStart⟩, hEnd⟩, hDigits⟩, hArea⟩, hPpu⟩, hDims⟩ := h
  refine ⟨?_, ?_, dimensionIssues_nil _ hDims, digitsIssues_nil _ hDigits⟩
  · by_contra hle
    exact ite_singleton_ne_nil (not_lt.mp hle) hArea
  · by_contra hle
    exact ite_singleton_ne_nil (not_lt.mp hle) hPpu

lemma singleIssues_nil (s : SingleInput) (h : singleIssues s = []) :
    0 < s.area ∧ 0 < s.price ∧ 0 < s.pricePerUnit ∧ s.plotNumber ≠ "" ∧
      DimsValid s.dimensions := by
  rw [singleIssues] at h
  simp only [List.append_eq_nil] at h
  obtain ⟨⟨⟨⟨⟨⟨hBlock, hNum⟩, hArea⟩, hPrice⟩, hPpu⟩, hRoad⟩, hDims⟩ := h
  refine ⟨?_, ?_, ?_, ?_, ?_⟩
  · by_contra hle
    exact ite_singleton_ne_nil (not_lt.mp hle) hArea
  · by_contra hle
    exact ite_singleton_ne_nil (not_lt.mp hle) hPrice
  · by_contra hle
    exact ite_singleton_ne_nil (not_lt.mp hle) hPpu
  · by_contra hle
    exact ite_singleton_ne_nil hle hNum
  · exact dimensionIssues_nil _ hDims

lemma bulkPlotNumber_ne_empty (s : BulkSpec) (hd : 1 ≤ s.digits) (i : ℤ) :
    bulkPlotNumber s i ≠ "" := by
  have hpad : 1 ≤ (padStartZeros (toString i)
      (if s.digits = 0 then 1 else s.digits).toNat).length := by
    rw [padStartZeros_length]
    have : 1 ≤ (if s.digits = 0 then 1 else s.digits).toNat := by
      split <;> omega
    omega
  intro he
  have := congrArg String.length he
  rw [bulkPlotNumber, String.length_append, String.length_append] at this
  simp only [String.length_empty] at this
  omega

/-- Counterexample to C7 as stated: the canvas save path dispatches a
freshly added draft (template defaults `price: 0`, `pricePerUnit: 0`)
without any validation, so the dispatched payload violates the `price > 0`
rule. -/
theorem canvas_draft_save_violates_price_rule :
    handleSave (addDraft [] 0).1 [] =
      .dispatch (some [nodeToCreatePayload (draftTemplate 1 0)]) none ∧
    ¬ CreatePayloadMeetsFieldRules (nodeToCreatePayload (draftTemplate 1 0)) := by
  constructor
  · rfl
  · intro hv
    exact absurd hv.2.1 (by norm_num [nodeToCreatePayload, draftTemplate])

/-- Claim C7 (amended): the dialog create paths validate synchronously
before dispatch — every payload produced by the bulk pipeline and every
parsed single-plot payload satisfies the field rules (`area > 0`,
`price > 0`, `pricePerUnit > 0`, non-empty `plotNumber`, positive
dimensions when present) — but the canvas save path performs no validation:
saving a freshly added draft dispatches the template defaults, whose
`price` and `pricePerUnit` are 0. -/
theorem validation_scope_dialog_paths_only :
    (∀ (inp : BulkInput) (spec : BulkSpec), parseBulkCreate inp = .ok spec →
      ∀ r ∈ generate spec, BulkRequestMeetsFieldRules r) ∧
    (∀ (inp : SingleInput) (d : SinglePayload), parseCreatePlot inp = .ok d →
      SinglePayloadMeetsFieldRules d) ∧
    (∀ now : ℕ,
      handleSave (addDraft [] now).1 [] =
        .dispatch (some [nodeToCreatePayload (draftTemplate 1 now)]) none ∧
      (nodeToCreatePayload (draftTemplate 1 now)).price = 0 ∧
      (nodeToCreatePayload (draftTemplate 1 now)).pricePerUnit = 0) := by
  refine ⟨?_, ?_, ?_⟩
  · intro inp spec hok r hr
    rw [parseBulkCreate] at hok
    split at hok
    case isFalse => exact absurd hok (by simp)
    case isTrue hbase =>
      split at hok
      case isFalse => exact absurd hok (by simp)
      case isTrue hord =>
        obtain ⟨h1, h2, h3, h4⟩ := bulkBaseIssues_nil inp (List.isEmpty_iff.mp hbase)
        obtain rfl := Except.ok.inj hok
        simp only [generate, List.mem_map, List.mem_range] at hr
        obtain ⟨k, _, rfl⟩ := hr
        exact ⟨h1, mul_pos h1 h2, h2, bulkPlotNumber_ne_empty _ h4 _, h3⟩
  · intro inp d hok
    rw [parseCreatePlot] at hok
    split at hok
    case isFalse => exact absurd hok (by simp)
    case isTrue hbase =>
      obtain ⟨h1, h2, h3, h4, h5⟩ := singleIssues_nil inp (List.isEmpty_iff.mp hbase)
      obtain rfl := Except.ok.inj hok
      exact ⟨h1, h2, h3, h4, h5⟩
  · intro now
    exact ⟨rfl, rfl, rfl⟩

/-- Concrete valid bulk input matching `exBulkSpec`. -/
def exGoodBulkInput : BulkInput :=
  ⟨"blk", some "A-", some "", 1, 5, some 3, 600, .SQ_FT, 100, some .NORTH,
   some .REGULAR, none⟩

theorem validation_scope_dialog_paths_only_witness :
    BulkRequestMeetsFieldRules
      (bulkRequestAt exBulkSpec (exBulkSpec.area * exBulkSpec.pricePerUnit) 1) ∧
    (nodeToCreatePayload (draftTemplate 1 0)).price = 0 := by
  constructor
  · refine validation_scope_dialog_paths_only.1 exGoodBulkInput exBulkSpec
      (by rfl) _ ?_
    exact List.mem_map.mpr ⟨0, by decide, rfl⟩
  · exact (validation_scope_dialog_paths_only.2.2 0).2.1

end Brokwise
